import Mathlib

/-!
Verification of the Photopi camera controller (`src/camera_app.py`) against its
natural-language specification.

The Python source is shallowly embedded: pure computations become Lean
functions over `ℚ`/`ℤ`/`ℕ` (Python floats are modelled by exact rationals; at
every concrete point appearing in a theorem the float and rational
computations agree, being far from any rounding boundary), the mutable
application object becomes an explicit `AppState` record threaded through the
event-handling functions, and fallible hardware calls are driven by explicit
fault oracles saying which call raises.
-/

namespace Photopi

/-- Python `int()` applied to a float: truncation toward zero, i.e. ceiling
for negative arguments and floor for non-negative ones. -/
def py_int (q : ℚ) : ℤ :=
  if q < 0 then Int.ceil q else Int.floor q

/-- The Python builtin binary max on numbers. -/
def py_max (a b : ℚ) : ℚ :=
  if a ≤ b then b else a

/-- The Python builtin binary min on numbers. -/
def py_min (a b : ℚ) : ℚ :=
  if a ≤ b then a else b

/-- Touch calibration table (`self.touch_cal` in `CameraApp.__init__`):
raw-axis bounds plus the swap/invert flags. Immutable after construction. -/
structure TouchCal where
  x_min : ℚ
  x_max : ℚ
  y_min : ℚ
  y_max : ℚ
  swap_xy : Bool
  invert_x : Bool
  invert_y : Bool
  deriving DecidableEq

/-- The concrete calibration table constructed in `CameraApp.__init__`
(lines 189–197): measured bounds for the 3.5" LCD, with swap and both
inversions enabled. -/
def touch_cal : TouchCal :=
  { x_min := 280, x_max := 3820, y_min := 290, y_max := 3910
    swap_xy := true, invert_x := true, invert_y := true }

/-- Embeds `CameraApp.calibrate_touch` (lines 1580–1606): swap raw axes if
`swap_xy`, normalize each axis against its bounds, invert if requested,
clamp to `[0,1]`, scale by the screen size and truncate with `int()`. -/
def calibrate_touch (cal : TouchCal) (width height : ℚ) (raw_x raw_y : ℚ) :
    ℤ × ℤ :=
  let p := if cal.swap_xy then (raw_y, raw_x) else (raw_x, raw_y)
  let x_norm := (p.1 - cal.x_min) / (cal.x_max - cal.x_min)
  let y_norm := (p.2 - cal.y_min) / (cal.y_max - cal.y_min)
  let x_norm := if cal.invert_x then 1 - x_norm else x_norm
  let y_norm := if cal.invert_y then 1 - y_norm else y_norm
  let x_norm := py_max 0 (py_min 1 x_norm)
  let y_norm := py_max 0 (py_min 1 y_norm)
  (py_int (x_norm * width), py_int (y_norm * height))

/-- The command tokens `udp_check` recognizes (lines 421–441). -/
def RECOGNIZED_COMMANDS : List String :=
  ["START_REMOTE", "STOP_REMOTE", "HEARTBEAT", "CAPTURE",
   "ISO_UP", "ISO_DOWN", "SHUTTER_UP", "SHUTTER_DOWN"]

/-! ## Settings tables and camera controls -/

/-- An entry of the ISO table: the string "Auto" or a numeric gain value. -/
inductive IsoVal
  | auto
  | value (n : ℕ)
  deriving DecidableEq

/-- The table `ISO_VALUES` (line 132): Auto followed by seven numeric gains. -/
def ISO_VALUES : List IsoVal :=
  [.auto, .value 100, .value 200, .value 400, .value 800,
   .value 1600, .value 3200, .value 6400]

/-- The table `SHUTTER_SPEEDS` (lines 133–147): display label paired with the exposure
time in microseconds; the first entry is Auto with 0 µs. -/
def SHUTTER_SPEEDS : List (String × ℕ) :=
  [("Auto", 0), ("1/2000", 500), ("1/1000", 1000), ("1/800", 1250),
   ("1/500", 2000), ("1/250", 4000), ("1/125", 8000), ("1/60", 16666),
   ("1/30", 33333), ("1/15", 66667), ("1/10", 100000), ("1/8", 125000),
   ("1/4", 250000)]

/-- The constant `BUTTON_DEBOUNCE` (line 115): 0.3 seconds. -/
def BUTTON_DEBOUNCE : ℚ := 3 / 10

/-- The device controls that `set_controls` calls can write. Each field is
`none` until the first write; a later write overwrites an earlier one. -/
structure Controls where
  aeEnable : Option Bool := none
  analogueGain : Option ℚ := none
  frameRate : Option (ℚ × ℚ) := none
  exposureTime : Option ℕ := none
  saturation : Option ℚ := none
  aePowerLineFrequency : Option ℕ := none
  deriving DecidableEq

/-- A Picamera2 configuration as far as this program determines it: still vs
video, the main-stream size and, when the configuration call passed one, the
buffer count (the still configuration in `capture_photo` passes none). -/
structure CamConfig where
  still : Bool
  size : ℕ × ℕ
  buffer_count : Option ℕ
  deriving DecidableEq

/-- The Picamera2 backend state: whether it is started, its current
configuration and the accumulated controls. -/
structure Camera where
  started : Bool
  config : CamConfig
  controls : Controls
  deriving DecidableEq

/-- The CaptureMode of the spec (plus the stopped state the spec mentions for
failed recovery), derived from the backend state. -/
inductive CamMode
  | preview
  | stillCapture
  | stopped
  deriving DecidableEq

/-- A started backend is in still-capture or preview mode according to its
configuration; a stopped backend is in neither. -/
def Camera.mode (c : Camera) : CamMode :=
  if c.started then (if c.config.still then .stillCapture else .preview)
  else .stopped

/-- The preview configuration built in `__init__` (lines 229–234) and in
`wake_from_standby` (lines 771–774): 426×320 video with buffer_count 1. -/
def preview_config_boot : CamConfig :=
  { still := false, size := (426, 320), buffer_count := some 1 }

/-- The still configuration built in `capture_photo` (lines 853–855):
4056×3040, no explicit buffer count. -/
def still_config : CamConfig :=
  { still := true, size := (4056, 3040), buffer_count := none }

/-- The preview configuration rebuilt after a capture, on both the success
path (lines 868–871) and the error path (lines 884–887): 426×320 video with
buffer_count 2. -/
def preview_config_restore : CamConfig :=
  { still := false, size := (426, 320), buffer_count := some 2 }

/-! ## Application state -/

/-- The mutable fields of `CameraApp` that the embedded operations read or
write. `capture_transitions` is ghost instrumentation: it counts how many
times `capture_photo` passed the debounce check and entered the
still-capture transition. -/
structure AppState where
  camera : Camera
  current_iso_index : ℤ
  current_shutter_index : ℤ
  grayscale_mode : Bool
  capture_pending : Bool
  last_capture_time : ℚ
  remote_active : Bool
  remote_last_heartbeat : ℚ
  standby_mode : Bool
  saved_brightness_black : Bool
  capture_transitions : ℕ
  deriving DecidableEq

/-- The state `CameraApp.__init__` establishes: camera started on the boot
preview configuration, all indices and flags zeroed/cleared. -/
def init_state : AppState :=
  { camera := { started := true, config := preview_config_boot, controls := {} }
    current_iso_index := 0
    current_shutter_index := 0
    grayscale_mode := false
    capture_pending := false
    last_capture_time := 0
    remote_active := false
    remote_last_heartbeat := 0
    standby_mode := false
    saved_brightness_black := false
    capture_transitions := 0 }

/-! ## Operations -/

/-- The body of `apply_camera_settings` (lines 795–829) as a function on the
controls: ISO Auto enables auto exposure, a numeric ISO sets the analogue
gain; a non-zero shutter sets the frame-rate range from the derived fps and
the exposure time; shutter 0 sets the default 30 fps range and auto
exposure; then saturation from the grayscale flag and the anti-flicker
control. Floats are modelled by exact rationals; on every table entry the
comparison 1000000/us < 30 agrees between the two. -/
def apply_controls (iso_index shutter_index : ℤ) (grayscale : Bool)
    (c : Controls) : Controls :=
  let iso := ISO_VALUES.getD iso_index.toNat .auto
  let entry := SHUTTER_SPEEDS.getD shutter_index.toNat ("Auto", 0)
  let shutter_us := entry.2
  let c :=
    match iso with
    | .auto => { c with aeEnable := some true }
    | .value n => { c with analogueGain := some ((n : ℚ) / 100) }
  let c :=
    if 0 < shutter_us then
      let requested_fps : ℚ := 1000000 / (shutter_us : ℚ)
      let c :=
        if requested_fps < 30 then
          { c with frameRate := some (1 / 10, requested_fps) }
        else
          { c with frameRate := some (30, 30) }
      { c with exposureTime := some shutter_us }
    else
      let c := { c with frameRate := some (30, 30) }
      { c with aeEnable := some true }
  let c :=
    if grayscale then { c with saturation := some 0 }
    else { c with saturation := some 1 }
  { c with aePowerLineFrequency := some 1 }

/-- Embeds `CameraApp.apply_camera_settings`: reads the current indices and the
grayscale flag and writes the derived controls to the camera. -/
def apply_camera_settings (s : AppState) : AppState :=
  let c := apply_controls s.current_iso_index s.current_shutter_index
    s.grayscale_mode s.camera.controls
  { s with camera.controls := c }

/-- Embeds `CameraApp.trigger_capture` (lines 359–361), the GPIO button callback:
its only effect is setting the capture-pending flag. -/
def trigger_capture (s : AppState) : AppState :=
  { s with capture_pending := true }

/-- Fault oracle for one run of `capture_photo`: for each fallible camera
call inside the try block, and for each call of the recovery handler,
whether it raises. A raising call is modelled as leaving the camera state
unchanged and transferring control to the enclosing handler. -/
structure CaptureFaults where
  stop_preview : Bool := false
  configure_still : Bool := false
  start_still : Bool := false
  apply_settings : Bool := false
  capture_file : Bool := false
  stop_still : Bool := false
  configure_preview : Bool := false
  start_preview : Bool := false
  rec_stop : Bool := false
  rec_configure : Bool := false
  rec_start : Bool := false
  deriving DecidableEq

/-- The fault-free oracle. -/
def no_faults : CaptureFaults := {}

/-- The except-handler of `capture_photo` (lines 882–891): stop, rebuild the
preview configuration with buffer_count 2, start — itself wrapped in a bare
try/except, so a raise inside it stops the recovery where it is. -/
def recover_preview (f : CaptureFaults) (c : Camera) : Camera :=
  if f.rec_stop then c else
  let c := { c with started := false }
  if f.rec_configure then c else
  let c := { c with config := preview_config_restore }
  if f.rec_start then c else
  { c with started := true }

/-- Embeds `CameraApp.capture_photo` (lines 831–891): debounce check first (early
return with no effect), then the still-capture transition
stop → configure still → start → apply settings → capture_file →
stop → configure preview (buffer_count 2) → start, with any raise routed to
the recovery handler. -/
def capture_photo (f : CaptureFaults) (now : ℚ) (s : AppState) : AppState :=
  if now - s.last_capture_time < BUTTON_DEBOUNCE then s
  else
    let s := { s with last_capture_time := now,
                      capture_transitions := s.capture_transitions + 1 }
    let c := s.camera
    if f.stop_preview then { s with camera := recover_preview f c } else
    let c := { c with started := false }
    if f.configure_still then { s with camera := recover_preview f c } else
    let c := { c with config := still_config }
    if f.start_still then { s with camera := recover_preview f c } else
    let c := { c with started := true }
    if f.apply_settings then { s with camera := recover_preview f c } else
    let cc := apply_controls s.current_iso_index s.current_shutter_index
      s.grayscale_mode c.controls
    let c := { c with controls := cc }
    if f.capture_file then { s with camera := recover_preview f c } else
    if f.stop_still then { s with camera := recover_preview f c } else
    let c := { c with started := false }
    if f.configure_preview then { s with camera := recover_preview f c } else
    let c := { c with config := preview_config_restore }
    if f.start_preview then { s with camera := recover_preview f c } else
    { s with camera := { c with started := true } }

/-- Embeds `CameraApp.wake_from_standby` (lines 717–793), fault-free path: no-op
unless in standby; otherwise restores the display, reconfigures the camera
to the boot preview configuration (buffer_count 1), starts it and clears the
standby and screen-off flags. -/
def wake_from_standby (s : AppState) : AppState :=
  if s.standby_mode = false then s
  else
    { s with
      camera := { s.camera with started := true, config := preview_config_boot },
      saved_brightness_black := false,
      standby_mode := false }

/-- The handler for one decoded UDP command token in `udp_check`
(lines 421–441). An unrecognized token falls through every branch and
changes nothing. The wrap-around index updates use `%`, which on `ℤ` is
Euclidean mod, matching the `%` operator of Python. -/
def udp_step (now : ℚ) (s : AppState) (cmd : String) : AppState :=
  if cmd = "START_REMOTE" then
    { s with remote_active := true, remote_last_heartbeat := now }
  else if cmd = "STOP_REMOTE" then { s with remote_active := false }
  else if cmd = "HEARTBEAT" then { s with remote_last_heartbeat := now }
  else if cmd = "CAPTURE" then trigger_capture s
  else if cmd = "ISO_UP" then
    apply_camera_settings
      { s with current_iso_index :=
          (s.current_iso_index + 1) % (ISO_VALUES.length : ℤ) }
  else if cmd = "ISO_DOWN" then
    apply_camera_settings
      { s with current_iso_index :=
          (s.current_iso_index - 1) % (ISO_VALUES.length : ℤ) }
  else if cmd = "SHUTTER_UP" then
    apply_camera_settings
      { s with current_shutter_index :=
          (s.current_shutter_index + 1) % (SHUTTER_SPEEDS.length : ℤ) }
  else if cmd = "SHUTTER_DOWN" then
    apply_camera_settings
      { s with current_shutter_index :=
          (s.current_shutter_index - 1) % (SHUTTER_SPEEDS.length : ℤ) }
  else s

/-- Embeds `CameraApp.udp_check` (lines 413–446) on the queue of pending datagrams:
a datagram is `some cmd` when it decodes to the token `cmd` and `none` when
`decode` raises. The loop pops datagrams until the socket is empty
(`BlockingIOError` → break, leftover `[]`); a `none` datagram raises inside
the loop body, which is caught and breaks out, leaving the rest of the
queue for the next tick. Returns the new state and the unread datagrams. -/
def udp_check (now : ℚ) (s : AppState) :
    List (Option String) → AppState × List (Option String)
  | [] => (s, [])
  | none :: rest => (s, rest)
  | some cmd :: rest => udp_check now (udp_step now s cmd) rest

/-! ## Standby sequence -/

/-- The power-down directives issued by `enter_standby` (lines 661–715), in
source order: the camera stop call followed by the eight subprocess
invocations. -/
inductive StandbyDirective
  | cameraStop
  | backlightSysfs
  | gpioExport
  | gpioDirection
  | gpioValue
  | fbBlank
  | hdmiOff
  | cpuPowersave
  | ledOff
  deriving DecidableEq

/-- The outcome of one directive: whether the call raises an exception
(subprocess.run can raise e.g. FileNotFoundError; camera.stop can raise),
and, for subprocesses, whether the command exited successfully. All the
subprocess.run calls pass check=False, so a failing exit status does not
raise. -/
structure DirectiveOutcome where
  raises : Bool
  exitOk : Bool
  deriving DecidableEq

/-- The directive sequence of `enter_standby`, in source order. -/
def standby_directives : List StandbyDirective :=
  [.cameraStop, .backlightSysfs, .gpioExport, .gpioDirection, .gpioValue,
   .fbBlank, .hdmiOff, .cpuPowersave, .ledOff]

/-- Executing a directive list inside the single try block of
`enter_standby`: a raising directive transfers control to the one enclosing
except handler, so every later directive is skipped. Returns the directives
that completed. Exit statuses are never consulted (check=False). -/
def run_directives (o : StandbyDirective → DirectiveOutcome) :
    List StandbyDirective → List StandbyDirective
  | [] => []
  | d :: rest =>
      if (o d).raises then [] else d :: run_directives o rest

/-- Embeds `CameraApp.enter_standby` (lines 661–715): sets the standby flag (before
the try block, hence unconditionally), then runs the directive sequence
inside one try/except; the camera is stopped exactly when its stop directive
completed. Returns the new state and the completed directives. -/
def enter_standby (o : StandbyDirective → DirectiveOutcome) (s : AppState) :
    AppState × List StandbyDirective :=
  let executed := run_directives o standby_directives
  let s := { s with standby_mode := true }
  let s :=
    if StandbyDirective.cameraStop ∈ executed then
      { s with camera.started := false }
    else s
  (s, executed)

/-! ## Main loop tick -/

/-- One tick of `CameraApp.run` (lines 1826–1900), in source order: act on
the capture-pending flag and clear it; drain the touch queue, waking from
standby or clearing the screen-off flag or dispatching to the camera-mode
touch handler (the UI dispatch `handle_touch` is the parameter `ht`); drain
the UDP socket; then, only when the screen is on (neither software-black nor
standby), apply the remote-heartbeat timeout. The battery refresh and the
rendering calls touch no modelled state. All time reads within the tick are
modelled by the single instant `now`. Returns the new state and the UDP
datagrams left unread. -/
def tick (ht : ℤ × ℤ → AppState → AppState) (f : CaptureFaults) (now : ℚ)
    (clicks : List (ℤ × ℤ)) (dgs : List (Option String)) (s : AppState) :
    AppState × List (Option String) :=
  let s :=
    if s.capture_pending then
      { capture_photo f now s with capture_pending := false }
    else s
  let s := clicks.foldl (fun s c =>
    if s.standby_mode then wake_from_standby s
    else if s.saved_brightness_black then { s with saved_brightness_black := false }
    else ht c s) s
  let p := udp_check now s dgs
  let s := p.1
  let s :=
    if s.saved_brightness_black || s.standby_mode then s
    else if now - s.remote_last_heartbeat > 10 then
      { s with remote_active := false }
    else s
  (s, p.2)

/-! ## Helper lemmas about clamping and truncation -/

theorem py_clamp_nonneg (q : ℚ) : 0 ≤ py_max 0 (py_min 1 q) := by
  unfold py_max py_min
  split_ifs <;> linarith

theorem py_clamp_le_one (q : ℚ) : py_max 0 (py_min 1 q) ≤ 1 := by
  unfold py_max py_min
  split_ifs <;> linarith

theorem py_int_nonneg {q : ℚ} (h : 0 ≤ q) : 0 ≤ py_int q := by
  unfold py_int
  rw [if_neg (not_lt.mpr h)]
  exact Int.floor_nonneg.mpr h

theorem py_int_le_of_le {q : ℚ} {n : ℤ} (h0 : 0 ≤ q) (h : q ≤ (n : ℚ)) :
    py_int q ≤ n := by
  unfold py_int
  rw [if_neg (not_lt.mpr h0)]
  calc Int.floor q ≤ Int.floor ((n : ℚ)) := Int.floor_mono h
    _ = n := Int.floor_intCast n

/-- A clamped value scaled by a non-negative integer width truncates into
the closed interval from 0 to that width. -/
theorem py_int_clamp_scale_bounds (q : ℚ) {w : ℤ} (hw : 0 ≤ w) :
    0 ≤ py_int (py_max 0 (py_min 1 q) * w) ∧
    py_int (py_max 0 (py_min 1 q) * w) ≤ w := by
  have h0 : 0 ≤ py_max 0 (py_min 1 q) := py_clamp_nonneg q
  have h1 : py_max 0 (py_min 1 q) ≤ 1 := py_clamp_le_one q
  have hw' : (0 : ℚ) ≤ (w : ℚ) := by exact_mod_cast hw
  have hq0 : 0 ≤ py_max 0 (py_min 1 q) * (w : ℚ) := mul_nonneg h0 hw'
  have hq1 : py_max 0 (py_min 1 q) * (w : ℚ) ≤ (w : ℚ) :=
    mul_le_of_le_one_left hw' h1
  exact ⟨py_int_nonneg hq0, py_int_le_of_le hq0 hq1⟩

/-- Both coordinates of any `calibrate_touch` result land in the closed
screen rectangle, whatever the raw input, because the normalized values are
clamped to the unit interval before scaling. -/
theorem calibrate_touch_mem_closed (cal : TouchCal) {width height : ℤ}
    (hw : 0 ≤ width) (hh : 0 ≤ height) (raw_x raw_y : ℚ) :
    0 ≤ (calibrate_touch cal width height raw_x raw_y).1 ∧
    (calibrate_touch cal width height raw_x raw_y).1 ≤ width ∧
    0 ≤ (calibrate_touch cal width height raw_x raw_y).2 ∧
    (calibrate_touch cal width height raw_x raw_y).2 ≤ height := by
  simp only [calibrate_touch]
  exact ⟨(py_int_clamp_scale_bounds _ hw).1, (py_int_clamp_scale_bounds _ hw).2,
    (py_int_clamp_scale_bounds _ hh).1, (py_int_clamp_scale_bounds _ hh).2⟩

/-! ## Claims about touch calibration (C2, C7, C10) -/

/-- C2 counterexample: the raw touch point (280, 2000) lies within the
declared calibration bounds of the constructed table, yet `calibrate_touch`
maps it to (246, 320) on the 480×320 screen, so the second coordinate
equals the height and the claimed strict bound `sy < height` fails. With
`swap_xy` set, the raw x coordinate is normalized against the y-axis bounds,
and 280 < y_min = 290 makes the inverted normalized value exceed 1, which
the clamp turns into exactly 1. -/
theorem calibrate_touch_strict_upper_cex :
    touch_cal.x_min ≤ 280 ∧ (280 : ℚ) ≤ touch_cal.x_max ∧
    touch_cal.y_min ≤ 2000 ∧ (2000 : ℚ) ≤ touch_cal.y_max ∧
    calibrate_touch touch_cal 480 320 280 2000 = (246, 320) ∧
    ¬ (calibrate_touch touch_cal 480 320 280 2000).2 < 320 := by
  refine ⟨by norm_num [touch_cal], by norm_num [touch_cal],
    by norm_num [touch_cal], by norm_num [touch_cal], ?_, ?_⟩
  · simp only [calibrate_touch, touch_cal, py_max, py_min, py_int]
    norm_num
  · have h : calibrate_touch touch_cal 480 320 280 2000 = (246, 320) := by
      simp only [calibrate_touch, touch_cal, py_max, py_min, py_int]
      norm_num
    rw [h]
    norm_num

/-- C2 (amended): for every raw touch point within the declared calibration
bounds, `calibrate_touch` is a pure function of the raw input and the
calibration table — in this embedding it is a mathematical function, so
determinism is definitional — and its result lies in the closed rectangle
0 ≤ sx ≤ width, 0 ≤ sy ≤ height; the strict upper bounds of the original
claim can fail at boundary inputs. -/
theorem calibrate_touch_inbounds_closed_box (cal : TouchCal)
    {width height : ℤ} (hw : 0 ≤ width) (hh : 0 ≤ height) (raw_x raw_y : ℚ)
    (hx1 : cal.x_min ≤ raw_x) (hx2 : raw_x ≤ cal.x_max)
    (hy1 : cal.y_min ≤ raw_y) (hy2 : raw_y ≤ cal.y_max) :
    0 ≤ (calibrate_touch cal width height raw_x raw_y).1 ∧
    (calibrate_touch cal width height raw_x raw_y).1 ≤ width ∧
    0 ≤ (calibrate_touch cal width height raw_x raw_y).2 ∧
    (calibrate_touch cal width height raw_x raw_y).2 ≤ height :=
  calibrate_touch_mem_closed cal hw hh raw_x raw_y

theorem calibrate_touch_inbounds_closed_box_witness :
    (0 : ℤ) ≤ 480 ∧ (0 : ℤ) ≤ 320 ∧
    touch_cal.x_min ≤ 2050 ∧ (2050 : ℚ) ≤ touch_cal.x_max ∧
    touch_cal.y_min ≤ 2100 ∧ (2100 : ℚ) ≤ touch_cal.y_max ∧
    (0 ≤ (calibrate_touch touch_cal 480 320 2050 2100).1 ∧
      (calibrate_touch touch_cal 480 320 2050 2100).1 ≤ 480 ∧
      0 ≤ (calibrate_touch touch_cal 480 320 2050 2100).2 ∧
      (calibrate_touch touch_cal 480 320 2050 2100).2 ≤ 320) :=
  ⟨by norm_num, by norm_num, by norm_num [touch_cal], by norm_num [touch_cal],
    by norm_num [touch_cal], by norm_num [touch_cal],
    calibrate_touch_inbounds_closed_box touch_cal (by norm_num) (by norm_num)
      2050 2100 (by norm_num [touch_cal]) (by norm_num [touch_cal])
      (by norm_num [touch_cal]) (by norm_num [touch_cal])⟩

/-- C7: on the constructed calibration table and the 480×320 screen, raw
touch (2050, 2100) calibrates to exactly (233, 164), which is within 8
pixels per axis of the screen center (240, 160) and within 8 pixels per
axis of the approximate figure (227, 172) given in the spec. -/
theorem calibrate_touch_center_sample :
    calibrate_touch touch_cal 480 320 2050 2100 = (233, 164) ∧
    ((calibrate_touch touch_cal 480 320 2050 2100).1 - 240).natAbs ≤ 8 ∧
    ((calibrate_touch touch_cal 480 320 2050 2100).2 - 160).natAbs ≤ 8 ∧
    ((calibrate_touch touch_cal 480 320 2050 2100).1 - 227).natAbs ≤ 8 ∧
    ((calibrate_touch touch_cal 480 320 2050 2100).2 - 172).natAbs ≤ 8 := by
  have h : calibrate_touch touch_cal 480 320 2050 2100 = (233, 164) := by
    simp only [calibrate_touch, touch_cal, py_max, py_min, py_int]
    norm_num
  rw [h]
  refine ⟨rfl, by norm_num, by norm_num, by norm_num, by norm_num⟩

/-- C10: for every raw touch input, also outside the declared bounds, the
clamp to the unit interval before scaling keeps the calibrated coordinates
in the closed rectangle 0 ≤ sx ≤ width, 0 ≤ sy ≤ height. -/
theorem calibrate_touch_always_closed_box (cal : TouchCal)
    {width height : ℤ} (hw : 0 ≤ width) (hh : 0 ≤ height)
    (raw_x raw_y : ℚ) :
    0 ≤ (calibrate_touch cal width height raw_x raw_y).1 ∧
    (calibrate_touch cal width height raw_x raw_y).1 ≤ width ∧
    0 ≤ (calibrate_touch cal width height raw_x raw_y).2 ∧
    (calibrate_touch cal width height raw_x raw_y).2 ≤ height :=
  calibrate_touch_mem_closed cal hw hh raw_x raw_y

theorem calibrate_touch_always_closed_box_witness :
    (0 : ℤ) ≤ 480 ∧ (0 : ℤ) ≤ 320 ∧
    (0 ≤ (calibrate_touch touch_cal 480 320 5000 (-7)).1 ∧
      (calibrate_touch touch_cal 480 320 5000 (-7)).1 ≤ 480 ∧
      0 ≤ (calibrate_touch touch_cal 480 320 5000 (-7)).2 ∧
      (calibrate_touch touch_cal 480 320 5000 (-7)).2 ≤ 320) :=
  ⟨by norm_num, by norm_num,
    calibrate_touch_always_closed_box touch_cal (by norm_num) (by norm_num)
      5000 (-7)⟩

/-! ## Claims about settings (C5, C6) -/

/-- C5: the four index commands update their index by ±1 modulo the table
length (`%` on `ℤ` is Euclidean mod, as in Python, so the result is always
in range), and in particular they wrap in both directions: ISO_UP from the
last ISO index 7 yields 0, ISO_DOWN from 0 yields 7, SHUTTER_UP from the
last shutter index 12 yields 0, SHUTTER_DOWN from 0 yields 12. -/
theorem udp_index_wrap (s : AppState) (now : ℚ) :
    (udp_step now s "ISO_UP").current_iso_index =
      (s.current_iso_index + 1) % (ISO_VALUES.length : ℤ) ∧
    (udp_step now s "ISO_DOWN").current_iso_index =
      (s.current_iso_index - 1) % (ISO_VALUES.length : ℤ) ∧
    (udp_step now s "SHUTTER_UP").current_shutter_index =
      (s.current_shutter_index + 1) % (SHUTTER_SPEEDS.length : ℤ) ∧
    (udp_step now s "SHUTTER_DOWN").current_shutter_index =
      (s.current_shutter_index - 1) % (SHUTTER_SPEEDS.length : ℤ) ∧
    (udp_step now { s with current_iso_index := 7 } "ISO_UP").current_iso_index
      = 0 ∧
    (udp_step now { s with current_iso_index := 0 } "ISO_DOWN").current_iso_index
      = 7 ∧
    (udp_step now { s with current_shutter_index := 12 }
      "SHUTTER_UP").current_shutter_index = 0 ∧
    (udp_step now { s with current_shutter_index := 0 }
      "SHUTTER_DOWN").current_shutter_index = 12 := by
  refine ⟨?_, ?_, ?_, ?_, ?_, ?_, ?_, ?_⟩ <;>
    simp [udp_step, apply_camera_settings, ISO_VALUES, SHUTTER_SPEEDS]

/-- Every shutter-table entry after the Auto entry has a positive exposure
time in microseconds. -/
theorem shutter_entry_pos :
    ∀ j : Fin 12, 0 < (SHUTTER_SPEEDS.getD ((j : ℕ) + 1) ("Auto", 0)).2 := by
  decide

/-- ISO index 0 selects Auto and enables auto exposure, whatever the other
settings are. -/
theorem apply_controls_iso_auto (shutter_index : ℤ) (g : Bool) (c : Controls) :
    (apply_controls 0 shutter_index g c).aeEnable = some true := by
  unfold apply_controls
  simp only [ISO_VALUES, Int.toNat_zero, List.getD_cons_zero]
  split_ifs <;> rfl

/-- Shutter index 0 selects Auto (0 µs) and applies the default frame-rate
range together with auto exposure. -/
theorem apply_controls_shutter_auto (iso_index : ℤ) (g : Bool) (c : Controls) :
    (apply_controls iso_index 0 g c).frameRate = some (30, 30) ∧
    (apply_controls iso_index 0 g c).aeEnable = some true := by
  unfold apply_controls
  rcases hiso : ISO_VALUES.getD iso_index.toNat IsoVal.auto with _ | n <;>
    simp only [hiso, Int.toNat_zero, SHUTTER_SPEEDS, List.getD_cons_zero] <;>
    split_ifs <;> simp_all

/-- A non-auto shutter entry with `us` microseconds sets the exposure time
to `us` and the frame-rate range to (0.1, 1000000/us) when the derived rate
is below 30 fps, and to (30, 30) otherwise. -/
theorem apply_controls_shutter_manual (iso_index : ℤ) (g : Bool)
    (c : Controls) (j : Fin 12) :
    (apply_controls iso_index ((j : ℤ) + 1) g c).exposureTime =
      some (SHUTTER_SPEEDS.getD ((j : ℕ) + 1) ("Auto", 0)).2 ∧
    (apply_controls iso_index ((j : ℤ) + 1) g c).frameRate =
      some (if (1000000 : ℚ) / ((SHUTTER_SPEEDS.getD ((j : ℕ) + 1) ("Auto", 0)).2 : ℚ) < 30
        then (1 / 10, (1000000 : ℚ) / ((SHUTTER_SPEEDS.getD ((j : ℕ) + 1) ("Auto", 0)).2 : ℚ))
        else (30, 30)) := by
  have hcast : ((j : ℤ) + 1).toNat = (j : ℕ) + 1 := by omega
  unfold apply_controls
  rw [hcast]
  rcases hiso : ISO_VALUES.getD iso_index.toNat IsoVal.auto with _ | n <;>
    simp only [hiso] <;>
    rw [if_pos (shutter_entry_pos j)] <;>
    split_ifs <;> simp_all

/-- C6: `apply_camera_settings` maps the settings indices to device controls
as specified: ISO index 0 (Auto) enables auto exposure; shutter index 0
(Auto, 0 µs) applies the default (30, 30) frame-rate range and enables auto
exposure; any non-auto shutter index with `us` microseconds sets the
exposure time to `us` and sets the frame-rate ceiling to the derived rate
1000000/us instead of 30 fps exactly when that rate is below 30 fps. -/
theorem apply_camera_settings_control_map (s : AppState) (j : Fin 12) :
    (apply_camera_settings
        { s with current_iso_index := 0 }).camera.controls.aeEnable
      = some true ∧
    (apply_camera_settings
        { s with current_shutter_index := 0 }).camera.controls.frameRate
      = some (30, 30) ∧
    (apply_camera_settings
        { s with current_shutter_index := 0 }).camera.controls.aeEnable
      = some true ∧
    (apply_camera_settings
        { s with current_shutter_index := (j : ℤ) + 1 }).camera.controls.exposureTime
      = some (SHUTTER_SPEEDS.getD ((j : ℕ) + 1) ("Auto", 0)).2 ∧
    (apply_camera_settings
        { s with current_shutter_index := (j : ℤ) + 1 }).camera.controls.frameRate
      = some (if (1000000 : ℚ) / ((SHUTTER_SPEEDS.getD ((j : ℕ) + 1) ("Auto", 0)).2 : ℚ) < 30
        then (1 / 10, (1000000 : ℚ) / ((SHUTTER_SPEEDS.getD ((j : ℕ) + 1) ("Auto", 0)).2 : ℚ))
        else (30, 30)) := by
  refine ⟨?_, ?_, ?_, ?_, ?_⟩
  · exact apply_controls_iso_auto _ _ _
  · exact (apply_controls_shutter_auto _ _ _).1
  · exact (apply_controls_shutter_auto _ _ _).2
  · exact (apply_controls_shutter_manual _ _ _ j).1
  · exact (apply_controls_shutter_manual _ _ _ j).2

/-! ## Claims about the still-capture transition (C1, C4) -/

/-- When none of the three calls of the recovery handler raises, recovery always
leaves the camera started on the restored preview configuration. -/
theorem recover_preview_ok (f : CaptureFaults) (hr1 : f.rec_stop = false)
    (hr2 : f.rec_configure = false) (hr3 : f.rec_start = false)
    (c : Camera) :
    recover_preview f c =
      { started := true, config := preview_config_restore,
        controls := c.controls } := by
  simp [recover_preview, hr1, hr2, hr3]

/-- A debounced call of capture_photo returns the state unchanged. -/
theorem capture_photo_debounced (f : CaptureFaults) (now : ℚ) (s : AppState)
    (h : now - s.last_capture_time < BUTTON_DEBOUNCE) :
    capture_photo f now s = s := by
  unfold capture_photo
  exact if_pos h

/-- A capture attempt that passes the debounce check increments the
transition counter by exactly one and stamps the capture time, for every
fault oracle. -/
theorem capture_photo_entered (f : CaptureFaults) (now : ℚ) (s : AppState)
    (h : ¬ now - s.last_capture_time < BUTTON_DEBOUNCE) :
    (capture_photo f now s).capture_transitions = s.capture_transitions + 1 ∧
    (capture_photo f now s).last_capture_time = now := by
  unfold capture_photo
  rw [if_neg h]
  split_ifs <;> exact ⟨rfl, rfl⟩

/-- capture_photo never touches the remote-session, standby or screen-off
fields. -/
theorem capture_photo_preserves (f : CaptureFaults) (now : ℚ) (s : AppState) :
    (capture_photo f now s).remote_last_heartbeat = s.remote_last_heartbeat ∧
    (capture_photo f now s).remote_active = s.remote_active ∧
    (capture_photo f now s).standby_mode = s.standby_mode ∧
    (capture_photo f now s).saved_brightness_black = s.saved_brightness_black := by
  by_cases hdeb : now - s.last_capture_time < BUTTON_DEBOUNCE
  · rw [capture_photo_debounced f now s hdeb]
    exact ⟨rfl, rfl, rfl, rfl⟩
  · unfold capture_photo
    rw [if_neg hdeb]
    split_ifs <;> exact ⟨rfl, rfl, rfl, rfl⟩

/-- C1 counterexample: starting from the boot state, whose preview
configuration has buffer_count 1, a capture during which `capture_file`
raises ends with the backend in Preview mode but with buffer_count 2 — not
the value the preview configuration had before the still capture began. The
fault-free capture restores the same buffer_count 2. -/
theorem capture_photo_buffer_count_cex :
    init_state.camera.config.buffer_count = some 1 ∧
    (capture_photo { capture_file := true } 1 init_state).camera.mode
      = CamMode.preview ∧
    (capture_photo { capture_file := true } 1 init_state).camera.config.buffer_count
      = some 2 ∧
    (capture_photo { capture_file := true } 1 init_state).camera.config.buffer_count
      ≠ init_state.camera.config.buffer_count ∧
    (capture_photo no_faults 1 init_state).camera.config.buffer_count
      = some 2 := by
  have hdeb : ¬ (1 : ℚ) - init_state.last_capture_time < BUTTON_DEBOUNCE := by
    norm_num [init_state, BUTTON_DEBOUNCE]
  refine ⟨rfl, ?_, ?_, ?_, ?_⟩ <;>
    · unfold capture_photo
      rw [if_neg hdeb]
      simp [init_state, no_faults, recover_preview, Camera.mode,
        preview_config_restore, preview_config_boot]

/-- C1 (amended): every capture attempt that passes the debounce check ends
with the backend back in Preview mode with the preview video configuration —
provided the stop/configure/start calls of the recovery handler do not raise —
but its buffer_count is the fixed value 2 of the restore configuration,
which is not in general the value the preview configuration had before the
capture (boot and wake use buffer_count 1). -/
theorem capture_photo_ends_preview (f : CaptureFaults) (now : ℚ)
    (s : AppState)
    (hdeb : ¬ now - s.last_capture_time < BUTTON_DEBOUNCE)
    (hr1 : f.rec_stop = false) (hr2 : f.rec_configure = false)
    (hr3 : f.rec_start = false) :
    (capture_photo f now s).camera.mode = CamMode.preview ∧
    (capture_photo f now s).camera.config = preview_config_restore := by
  unfold capture_photo
  rw [if_neg hdeb]
  split_ifs <;>
    simp [recover_preview_ok f hr1 hr2 hr3, Camera.mode,
      preview_config_restore]

theorem capture_photo_ends_preview_witness :
    (¬ (1 : ℚ) - init_state.last_capture_time < BUTTON_DEBOUNCE) ∧
    (({ capture_file := true } : CaptureFaults).rec_stop = false) ∧
    (({ capture_file := true } : CaptureFaults).rec_configure = false) ∧
    (({ capture_file := true } : CaptureFaults).rec_start = false) ∧
    ((capture_photo { capture_file := true } 1 init_state).camera.mode
        = CamMode.preview ∧
      (capture_photo { capture_file := true } 1 init_state).camera.config
        = preview_config_restore) :=
  ⟨by norm_num [init_state, BUTTON_DEBOUNCE], rfl, rfl, rfl,
    capture_photo_ends_preview { capture_file := true } 1 init_state
      (by norm_num [init_state, BUTTON_DEBOUNCE]) rfl rfl rfl⟩

/-- A tick with no touch events and no datagrams changes the debounce and
transition bookkeeping exactly as its capture step does, and clears the
pending flag. -/
theorem tick_nil_capture_fields (ht : ℤ × ℤ → AppState → AppState)
    (f : CaptureFaults) (now : ℚ) (s : AppState) :
    (tick ht f now [] [] s).1.capture_transitions =
      (if s.capture_pending then capture_photo f now s else s).capture_transitions ∧
    (tick ht f now [] [] s).1.last_capture_time =
      (if s.capture_pending then capture_photo f now s else s).last_capture_time := by
  simp only [tick, udp_check, List.foldl]
  split_ifs <;> simp

/-- C4: two capture triggers within one 0.3 s debounce window produce
exactly one still-capture transition. The trigger path only sets the
pending flag (so repeated triggers before the loop observes it coalesce);
a capture attempt less than the debounce interval after the previous
capture returns with no effect at all; and across two main-loop ticks that
each observe a trigger, with the second trigger within the window of the
first, the transition counter advances by exactly one. -/
theorem capture_debounce_single_transition :
    (∀ s : AppState, trigger_capture s = { s with capture_pending := true }) ∧
    (∀ s : AppState, trigger_capture (trigger_capture s) = trigger_capture s) ∧
    (∀ (f : CaptureFaults) (now : ℚ) (s : AppState),
      now - s.last_capture_time < BUTTON_DEBOUNCE →
      capture_photo f now s = s) ∧
    (∀ (ht : ℤ × ℤ → AppState → AppState) (f₁ f₂ : CaptureFaults)
      (t₁ t₂ : ℚ) (s : AppState),
      s.capture_pending = true →
      ¬ t₁ - s.last_capture_time < BUTTON_DEBOUNCE →
      t₂ - t₁ < BUTTON_DEBOUNCE →
      ((tick ht f₂ t₂ [] []
          (trigger_capture (tick ht f₁ t₁ [] [] s).1)).1).capture_transitions
        = s.capture_transitions + 1) := by
  refine ⟨fun s => rfl, fun s => rfl,
    fun f now s h => capture_photo_debounced f now s h, ?_⟩
  intro ht f₁ f₂ t₁ t₂ s hp hdeb hwin
  set s₁ := (tick ht f₁ t₁ [] [] s).1 with hs₁
  have h₁ := tick_nil_capture_fields ht f₁ t₁ s
  rw [hp, if_pos rfl] at h₁
  have hcap₁ := capture_photo_entered f₁ t₁ s hdeb
  -- fields of the state after the first tick
  have htr₁ : s₁.capture_transitions = s.capture_transitions + 1 := by
    rw [hs₁, h₁.1, hcap₁.1]
  have hlt₁ : s₁.last_capture_time = t₁ := by
    rw [hs₁, h₁.2, hcap₁.2]
  -- second tick: the pending flag is set, but the capture is debounced
  have h₂ := tick_nil_capture_fields ht f₂ t₂ (trigger_capture s₁)
  have hp₂ : (trigger_capture s₁).capture_pending = true := rfl
  rw [hp₂, if_pos rfl] at h₂
  have hdeb₂ : t₂ - (trigger_capture s₁).last_capture_time < BUTTON_DEBOUNCE := by
    have hl : (trigger_capture s₁).last_capture_time = t₁ := by
      rw [show (trigger_capture s₁).last_capture_time
          = s₁.last_capture_time from rfl, hlt₁]
    rw [hl]; exact hwin
  have hnc := capture_photo_debounced f₂ t₂ (trigger_capture s₁) hdeb₂
  rw [h₂.1, hnc,
    show (trigger_capture s₁).capture_transitions
      = s₁.capture_transitions from rfl, htr₁]

theorem capture_debounce_single_transition_witness :
    ((trigger_capture init_state).capture_pending = true) ∧
    (¬ (2 / 5 : ℚ) - (trigger_capture init_state).last_capture_time
        < BUTTON_DEBOUNCE) ∧
    ((1 / 2 : ℚ) - (2 / 5 : ℚ) < BUTTON_DEBOUNCE) ∧
    ((tick (fun _ s => s) no_faults (1 / 2) [] []
        (trigger_capture
          (tick (fun _ s => s) no_faults (2 / 5) [] []
            (trigger_capture init_state)).1)).1).capture_transitions
      = (trigger_capture init_state).capture_transitions + 1 :=
  ⟨rfl, by norm_num [trigger_capture, init_state, BUTTON_DEBOUNCE],
    by norm_num [BUTTON_DEBOUNCE],
    capture_debounce_single_transition.2.2.2 (fun _ s => s) no_faults
      no_faults (2 / 5) (1 / 2) (trigger_capture init_state) rfl
      (by norm_num [trigger_capture, init_state, BUTTON_DEBOUNCE])
      (by norm_num [BUTTON_DEBOUNCE])⟩

/-! ## Claims about the remote channel and heartbeat (C3, C9) -/

/-- A command other than START_REMOTE and HEARTBEAT leaves the heartbeat
timestamp, the standby flag and the screen-off flag unchanged. -/
theorem udp_step_preserves (now : ℚ) (s : AppState) (cmd : String)
    (h1 : cmd ≠ "START_REMOTE") (h2 : cmd ≠ "HEARTBEAT") :
    (udp_step now s cmd).remote_last_heartbeat = s.remote_last_heartbeat ∧
    (udp_step now s cmd).standby_mode = s.standby_mode ∧
    (udp_step now s cmd).saved_brightness_black = s.saved_brightness_black := by
  unfold udp_step
  split_ifs <;> simp_all [trigger_capture, apply_camera_settings]

/-- Draining a datagram queue that contains no HEARTBEAT and no START_REMOTE
leaves the heartbeat timestamp, the standby flag and the screen-off flag
unchanged. -/
theorem udp_check_preserves (now : ℚ) (dgs : List (Option String)) :
    ∀ s : AppState,
    (∀ d ∈ dgs, d ≠ some "HEARTBEAT" ∧ d ≠ some "START_REMOTE") →
    (udp_check now s dgs).1.remote_last_heartbeat = s.remote_last_heartbeat ∧
    (udp_check now s dgs).1.standby_mode = s.standby_mode ∧
    (udp_check now s dgs).1.saved_brightness_black
      = s.saved_brightness_black := by
  induction dgs with
  | nil => exact fun s _ => ⟨rfl, rfl, rfl⟩
  | cons d rest ih =>
    intro s h
    match d with
    | none => exact ⟨rfl, rfl, rfl⟩
    | some cmd =>
      have hc := h (some cmd) (by simp)
      have h1 : cmd ≠ "START_REMOTE" := by
        intro he; exact hc.2 (by rw [he])
      have h2 : cmd ≠ "HEARTBEAT" := by
        intro he; exact hc.1 (by rw [he])
      have hstep := udp_step_preserves now s cmd h1 h2
      have ih' := ih (udp_step now s cmd) (fun d hd => h d (by simp [hd]))
      simp only [udp_check]
      exact ⟨ih'.1.trans hstep.1, ih'.2.1.trans hstep.2.1,
        ih'.2.2.trans hstep.2.2⟩

/-- C3 counterexample: in a standby tick the heartbeat-timeout check is
skipped. With the remote session active, heartbeat at 0 and standby set, a
tick at time 11 (heartbeat age 11 > 10, no datagrams at all) leaves the
session active, contradicting the claim that every such tick deactivates
it. -/
theorem heartbeat_timeout_standby_cex :
    (11 : ℚ) - ({ init_state with remote_active := true, standby_mode := true } : AppState).remote_last_heartbeat > 10 ∧
    (tick (fun _ s => s) no_faults 11 [] []
        ({ init_state with remote_active := true, standby_mode := true } : AppState)).1.remote_active = true := by
  constructor
  · norm_num [init_state]
  · simp [tick, udp_check, init_state]

/-- C3 (amended): on every tick that runs with the display on (standby off
and the software screen-off flag clear), no touch events, and no HEARTBEAT
or START_REMOTE datagram arriving, if the heartbeat age exceeds 10 seconds
the loop sets the remote session inactive. In standby or screen-off ticks
the check is skipped, so the original unconditional claim fails. -/
theorem heartbeat_timeout_deactivates (ht : ℤ × ℤ → AppState → AppState)
    (f : CaptureFaults) (now : ℚ) (dgs : List (Option String)) (s : AppState)
    (hsb : s.standby_mode = false) (hbl : s.saved_brightness_black = false)
    (hdg : ∀ d ∈ dgs, d ≠ some "HEARTBEAT" ∧ d ≠ some "START_REMOTE")
    (hage : 10 < now - s.remote_last_heartbeat) :
    (tick ht f now [] dgs s).1.remote_active = false := by
  unfold tick
  simp only [List.foldl]
  set s₁ := if s.capture_pending then
      { capture_photo f now s with capture_pending := false } else s with hs₁
  have h₁ : s₁.remote_last_heartbeat = s.remote_last_heartbeat ∧
      s₁.standby_mode = false ∧ s₁.saved_brightness_black = false := by
    rw [hs₁]
    split_ifs with hp
    · have hc := capture_photo_preserves f now s
      exact ⟨hc.1, by rw [show ({ capture_photo f now s with
          capture_pending := false } : AppState).standby_mode
          = (capture_photo f now s).standby_mode from rfl, hc.2.2.1, hsb],
        by rw [show ({ capture_photo f now s with
          capture_pending := false } : AppState).saved_brightness_black
          = (capture_photo f now s).saved_brightness_black from rfl,
          hc.2.2.2, hbl]⟩
    · exact ⟨rfl, hsb, hbl⟩
  have h₂ := udp_check_preserves now dgs s₁ hdg
  rw [h₂.2.2, h₁.2.2, h₂.2.1, h₁.2.1]
  simp only [Bool.or_self, Bool.false_eq_true, if_false]
  rw [h₂.1, h₁.1]
  rw [if_pos hage]

theorem heartbeat_timeout_deactivates_witness :
    ((udp_step 0 init_state "START_REMOTE").standby_mode = false) ∧
    ((udp_step 0 init_state "START_REMOTE").saved_brightness_black = false) ∧
    ((udp_step 0 init_state "START_REMOTE").remote_active = true) ∧
    ((10 : ℚ) < 11 - (udp_step 0 init_state "START_REMOTE").remote_last_heartbeat) ∧
    (tick (fun _ s => s) no_faults 11 [] []
        (udp_step 0 init_state "START_REMOTE")).1.remote_active = false :=
  ⟨by simp [udp_step, init_state], by simp [udp_step, init_state],
    by simp [udp_step, init_state],
    by norm_num [udp_step, init_state],
    heartbeat_timeout_deactivates (fun _ s => s) no_faults 11 []
      (udp_step 0 init_state "START_REMOTE")
      (by simp [udp_step, init_state]) (by simp [udp_step, init_state])
      (fun d hd => absurd hd (List.not_mem_nil d))
      (by norm_num [udp_step, init_state])⟩

/-- An unrecognized but decodable token falls through every branch of the
command dispatch and changes nothing. -/
theorem udp_step_unrecognized (now : ℚ) (s : AppState) (cmd : String)
    (h : cmd ∉ RECOGNIZED_COMMANDS) :
    udp_step now s cmd = s := by
  unfold udp_step
  split_ifs <;> simp_all [RECOGNIZED_COMMANDS]

/-- C9 counterexample: a malformed (undecodable) datagram aborts the drain
for the tick. With queue [malformed, CAPTURE], `udp_check` stops at the
malformed datagram, leaves the state untouched and leaves the CAPTURE
datagram unread, so the socket was not read to exhaustion on this tick. -/
theorem udp_check_malformed_cex :
    udp_check 0 init_state [none, some "CAPTURE"]
      = (init_state, [some "CAPTURE"]) ∧
    (udp_check 0 init_state [none, some "CAPTURE"]).2 ≠ [] ∧
    (udp_check 0 init_state [none, some "CAPTURE"]).1.capture_pending
      = false := by
  refine ⟨rfl, by simp [udp_check], rfl⟩

/-- C9 (amended): the per-tick drain pops datagrams without blocking until
the socket is empty or a malformed datagram is hit. An unrecognized but
decodable token is dropped silently — no state change — and the drain
continues; a malformed datagram causes no state change but ends the drain
for the tick, leaving the remaining datagrams queued; when every datagram
decodes, the queue is read to exhaustion. -/
theorem udp_check_drop_semantics :
    (∀ (now : ℚ) (s : AppState) (cmd : String) (rest : List (Option String)),
      cmd ∉ RECOGNIZED_COMMANDS →
      udp_check now s (some cmd :: rest) = udp_check now s rest) ∧
    (∀ (now : ℚ) (s : AppState) (rest : List (Option String)),
      udp_check now s (none :: rest) = (s, rest)) ∧
    (∀ (now : ℚ) (s : AppState) (dgs : List (Option String)),
      (∀ d ∈ dgs, d ≠ none) → (udp_check now s dgs).2 = []) := by
  refine ⟨?_, fun now s rest => rfl, ?_⟩
  · intro now s cmd rest h
    simp only [udp_check, udp_step_unrecognized now s cmd h]
  · intro now s dgs
    induction dgs generalizing s with
    | nil => exact fun _ => rfl
    | cons d rest ih =>
      intro h
      match d with
      | none => exact absurd rfl (h none (by simp))
      | some cmd =>
        simp only [udp_check]
        exact ih (udp_step now s cmd) (fun d hd => h d (by simp [hd]))

theorem udp_check_drop_semantics_witness :
    ("BOGUS" ∉ RECOGNIZED_COMMANDS ∧
      udp_check 0 init_state [some "BOGUS"] = udp_check 0 init_state []) ∧
    (udp_check 0 init_state [none] = (init_state, [])) ∧
    ((∀ d ∈ [some "CAPTURE"], d ≠ (none : Option String)) ∧
      (udp_check 0 init_state [some "CAPTURE"]).2 = []) :=
  ⟨⟨by simp [RECOGNIZED_COMMANDS],
    udp_check_drop_semantics.1 0 init_state "BOGUS" []
      (by simp [RECOGNIZED_COMMANDS])⟩,
    udp_check_drop_semantics.2.1 0 init_state [],
    ⟨by simp, udp_check_drop_semantics.2.2 0 init_state [some "CAPTURE"]
      (by simp)⟩⟩

/-! ## Claims about the standby sequence (C8) -/

/-- C8 counterexample: if the camera-stop directive raises an exception, the
single enclosing handler catches it but every later directive is skipped —
in particular the backlight directive never runs — contradicting the claim
that the sequence always continues to the next directive after any
failure. -/
theorem enter_standby_abort_cex :
    (enter_standby
        (fun d => { raises := decide (d = StandbyDirective.cameraStop),
                    exitOk := true }) init_state).2 = [] ∧
    StandbyDirective.backlightSysfs ∉
      (enter_standby
        (fun d => { raises := decide (d = StandbyDirective.cameraStop),
                    exitOk := true }) init_state).2 := by
  constructor
  · simp [enter_standby, run_directives, standby_directives]
  · simp [enter_standby, run_directives, standby_directives]

/-- Oracles that agree on which directives raise produce the same directive
execution, whatever the exit statuses are. -/
theorem run_directives_congr (o₁ o₂ : StandbyDirective → DirectiveOutcome)
    (h : ∀ d, (o₁ d).raises = (o₂ d).raises) :
    ∀ l : List StandbyDirective, run_directives o₁ l = run_directives o₂ l := by
  intro l
  induction l with
  | nil => rfl
  | cons d rest ih => simp [run_directives, h d, ih]

/-- If no directive raises, the whole sequence executes in order. -/
theorem run_directives_total (o : StandbyDirective → DirectiveOutcome)
    (h : ∀ d, (o d).raises = false) :
    ∀ l : List StandbyDirective, run_directives o l = l := by
  intro l
  induction l with
  | nil => rfl
  | cons d rest ih => simp [run_directives, h d, ih]

/-- C8 (amended): `enter_standby` always sets the standby flag (before the
try block); failures reported through a subprocess exit status never abort
the sequence, since every call passes check=False and the exit statuses are
never consulted; and when no directive raises an exception the whole
sequence executes. What the original claim misses is that an exception
raised by any directive is caught by one single enclosing handler and skips
all later directives (the counterexample above). -/
theorem enter_standby_semantics :
    (∀ (o : StandbyDirective → DirectiveOutcome) (s : AppState),
      (enter_standby o s).1.standby_mode = true) ∧
    (∀ (o₁ o₂ : StandbyDirective → DirectiveOutcome) (s : AppState),
      (∀ d, (o₁ d).raises = (o₂ d).raises) →
      enter_standby o₁ s = enter_standby o₂ s) ∧
    (∀ (o : StandbyDirective → DirectiveOutcome) (s : AppState),
      (∀ d, (o d).raises = false) →
      (enter_standby o s).2 = standby_directives) := by
  refine ⟨?_, ?_, ?_⟩
  · intro o s
    simp only [enter_standby]
    split_ifs <;> rfl
  · intro o₁ o₂ s h
    simp only [enter_standby]
    rw [run_directives_congr o₁ o₂ h]
  · intro o s h
    simp only [enter_standby]
    simp [run_directives_total o h]

theorem enter_standby_semantics_witness :
    ((enter_standby (fun _ => { raises := false, exitOk := true })
        init_state).1.standby_mode = true) ∧
    ((∀ d : StandbyDirective,
        ((fun _ => ({ raises := false, exitOk := true } : DirectiveOutcome)) d).raises
          = ((fun _ => ({ raises := false, exitOk := false } : DirectiveOutcome)) d).raises) ∧
      enter_standby (fun _ => { raises := false, exitOk := true }) init_state
        = enter_standby (fun _ => { raises := false, exitOk := false }) init_state) ∧
    ((∀ d : StandbyDirective,
        ((fun _ => ({ raises := false, exitOk := true } : DirectiveOutcome)) d).raises
          = false) ∧
      (enter_standby (fun _ => { raises := false, exitOk := true })
        init_state).2 = standby_directives) :=
  ⟨enter_standby_semantics.1 (fun _ => { raises := false, exitOk := true })
      init_state,
    ⟨fun d => rfl,
      enter_standby_semantics.2.1 (fun _ => { raises := false, exitOk := true })
        (fun _ => { raises := false, exitOk := false }) init_state
        (fun d => rfl)⟩,
    ⟨fun d => rfl,
      enter_standby_semantics.2.2 (fun _ => { raises := false, exitOk := true })
        init_state (fun d => rfl)⟩⟩

end Photopi
